import Mathlib

/-!
Verification development for the StudyMate frontend logic
(DSA sheet filters, favorites toggle, preference debounce, resume
upload validation). Each definition is a shallow embedding of the
corresponding TypeScript function; doctexts name the source symbol.
-/

namespace StudyMate

/-- Filter state held by the DSA sheet: three string sets represented,
as in the source, by arrays (`filters.difficulty`, `filters.category`,
`filters.companies` in `DSAFilters.tsx`). -/
structure Filters where
  difficulty : List String
  category : List String
  companies : List String
deriving Repr, DecidableEq

/-- Embedding of `handleDifficultyChange` in `DSAFilters`: when checked,
append the difficulty to the array (JS spread `[...filters.difficulty,
difficulty]`); when unchecked, keep the entries that differ from it
(`filter(d => d !== difficulty)`); the other fields are spread unchanged. -/
def handleDifficultyChange (filters : Filters) (difficulty : String) (checked : Bool) : Filters :=
  let newDifficulties :=
    if checked then filters.difficulty ++ [difficulty]
    else filters.difficulty.filter (fun d => d != difficulty)
  { filters with difficulty := newDifficulties }

/-- Embedding of `handleCategoryChange` in `DSAFilters`. -/
def handleCategoryChange (filters : Filters) (category : String) (checked : Bool) : Filters :=
  let newCategories :=
    if checked then filters.category ++ [category]
    else filters.category.filter (fun c => c != category)
  { filters with category := newCategories }

/-- Embedding of `handleCompanyChange` in `DSAFilters`. -/
def handleCompanyChange (filters : Filters) (company : String) (checked : Bool) : Filters :=
  let newCompanies :=
    if checked then filters.companies ++ [company]
    else filters.companies.filter (fun c => c != company)
  { filters with companies := newCompanies }

/-- Observable steps performed by `handleToggleFavorite` in `DSASheet`,
in execution order: the collaborator calls (`dsaService.addToFavorites`,
`dsaService.removeFromFavorites`), the local state mutation
(`setFavorites`), and the toast notifications. -/
inductive FavAction where
  | callRemove (id : String)
  | callAdd (id : String)
  | setFavorites
  | toastSuccess (msg : String)
  | toastError (msg : String)
deriving Repr, DecidableEq

/-- Embedding of `handleToggleFavorite` in `DSASheet`. Inputs: whether a
user is signed in, the current `favorites` array, the toggled item id,
and whether the awaited collaborator call succeeds. Output: the
`favorites` array after the handler returns, and the ordered list of
observable steps. In the source the collaborator call is awaited first;
`setFavorites` runs only after it resolves, and a thrown error jumps to
the catch block, which only shows an error toast. -/
def handleToggleFavorite (userPresent : Bool) (favorites : List String)
    (itemId : String) (callOk : Bool) : List String × List FavAction :=
  if userPresent = false then
    (favorites, [.toastError "Please sign in to add favorites"])
  else if favorites.contains itemId then
    if callOk then
      (favorites.filter (fun id => id != itemId),
       [.callRemove itemId, .setFavorites, .toastSuccess "Removed from favorites"])
    else
      (favorites, [.callRemove itemId, .toastError "Error updating favorites"])
  else
    if callOk then
      (favorites ++ [itemId],
       [.callAdd itemId, .setFavorites, .toastSuccess "Added to favorites"])
    else
      (favorites, [.callAdd itemId, .toastError "Error updating favorites"])

/-- True on the local-mutation step. -/
def isSetAction : FavAction → Bool
  | .setFavorites => true
  | _ => false

/-- True on a collaborator add/remove call step. -/
def isCallAction : FavAction → Bool
  | .callRemove _ => true
  | .callAdd _ => true
  | _ => false

/-- True on a toast notification step. -/
def isToastAction : FavAction → Bool
  | .toastSuccess _ => true
  | .toastError _ => true
  | _ => false

/-- Checks the ordering stated by the optimistic-update claim: the trace
contains a local mutation, a collaborator call, and the mutation comes
strictly first. -/
def mutationThenCall (tr : List FavAction) : Bool :=
  match tr.findIdx? isSetAction, tr.findIdx? isCallAction with
  | some i, some j => Nat.blt i j
  | _, _ => false

/-- Embedding of the debounced save effect in `DSASheet`: the effect runs
at each filter change, schedules `saveFilters` after a 1000ms timeout,
and its cleanup (run at the next change) clears the pending timeout.
Input: the delay and the time-stamped filter changes in chronological
order. Output: the time-stamped writes issued to the collaborator. A
scheduled write survives exactly when no later change happens strictly
before its deadline. -/
def debounceWrites (delay : Nat) : List (Nat × Filters) → List (Nat × Filters)
  | [] => []
  | [(t, f)] => [(t + delay, f)]
  | (t, f) :: (t2, f2) :: rest =>
    (if t + delay ≤ t2 then [(t + delay, f)] else [])
      ++ debounceWrites delay ((t2, f2) :: rest)

/-- File metadata consulted by the upload validation: MIME type and size
in bytes. -/
structure UFile where
  type : String
  size : Nat
deriving Repr, DecidableEq

/-- The MIME allow-list `validTypes` in `ResumeUpload.onDrop`. -/
def validTypes : List String :=
  ["application/pdf", "application/msword",
   "application/vnd.openxmlformats-officedocument.wordprocessingml.document"]

/-- Observable steps performed by `ResumeUpload.onDrop`: toasts and the
external `uploadResume` network call. -/
inductive UAction where
  | toastError (title : String)
  | toastSuccess (title : String)
  | callUploadResume
deriving Repr, DecidableEq

/-- Embedding of `ResumeUpload.onDrop`. Inputs: whether a user is
present (the `!file || !user` guard), the dropped file, and whether the
awaited `uploadResume` call succeeds. Output: the ordered observable
steps. The source checks the MIME type first, then the 5 MiB size
ceiling, and only then issues the network call; progress-bar state
updates are internal and not modelled as observable steps. -/
def onDrop (userPresent : Bool) (file : UFile) (uploadOk : Bool) : List UAction :=
  if userPresent = false then []
  else if validTypes.contains file.type = false then
    [.toastError "Invalid file type"]
  else if 5 * 1024 * 1024 < file.size then
    [.toastError "File too large"]
  else
    .callUploadResume ::
      (if uploadOk then [.toastSuccess "Resume processed successfully"]
       else [.toastError "Processing failed"])

/-- Catalog entry as described by the data model: id, title, difficulty
and category (the remaining fields do not affect filtering). -/
structure CatalogEntry where
  id : String
  title : String
  difficulty : String
  category : String
deriving Repr, DecidableEq

/-- Substring test on lists: the pattern occurs contiguously somewhere
in the haystack. -/
def containsSub {α : Type} [BEq α] (pat : List α) : List α → Bool
  | [] => pat.isEmpty
  | c :: rest => pat.isPrefixOf (c :: rest) || containsSub pat rest

/-- ASCII lower-casing of a character code, modelling the
case-insensitivity of the title search. -/
def lowerCode (n : Nat) : Nat :=
  if 65 ≤ n ∧ n ≤ 90 then n + 32 else n

/-- The character codes of a string, lower-cased. -/
def lowerCodes (s : String) : List Nat :=
  s.data.map (fun c => lowerCode c.toNat)

/-- Modelled from the spec: the predicate of the filter derivation in the
`useDSAFilters` hook, whose source file is absent from the inspected
tree. Following the spec text: difficulty set empty OR entry.difficulty
in the set; category set empty OR entry.category in the set; companies
set empty OR entry.id in the set; and, if the search string is
non-empty, a case-insensitive substring match on the title. -/
def matchesEntry (f : Filters) (search : String) (e : CatalogEntry) : Bool :=
  (f.difficulty.isEmpty || f.difficulty.contains e.difficulty)
  && (f.category.isEmpty || f.category.contains e.category)
  && (f.companies.isEmpty || f.companies.contains e.id)
  && (search.isEmpty || containsSub (lowerCodes search) (lowerCodes e.title))

/-- Modelled from the spec: the filter derivation of `useDSAFilters`
produces the subset of the catalog whose entries satisfy `matchesEntry`,
in catalog order. -/
def filterCatalog (f : Filters) (search : String) (C : List CatalogEntry) : List CatalogEntry :=
  C.filter (matchesEntry f search)

/-! Theorems about the embedded operations. -/

/-- Claim C1, counterexample: with a signed-in user, an empty favorites
list, item id "a" and a succeeding collaborator call, the trace of
`handleToggleFavorite` places the collaborator call at index 0 and the
local mutation at index 1, so the local set is NOT updated before the
persistence call is issued. -/
theorem favorites_toggle_not_optimistic_cex :
    mutationThenCall (handleToggleFavorite true [] "a" true).2 = false ∧
    (handleToggleFavorite true [] "a" true).2.findIdx? isCallAction = some 0 ∧
    (handleToggleFavorite true [] "a" true).2.findIdx? isSetAction = some 1 := by
  decide

/-- Claim C1, amended: for every favorites list and item id, with a
signed-in user and a succeeding collaborator call, `handleToggleFavorite`
issues the matching addFavorite/removeFavorite call first and applies
the local mutation only after the call succeeds, followed by a success
notification. -/
theorem favorites_toggle_call_then_mutation (S : List String) (x : String) :
    (handleToggleFavorite true S x true).2 =
      if S.contains x then
        [FavAction.callRemove x, FavAction.setFavorites,
         FavAction.toastSuccess "Removed from favorites"]
      else
        [FavAction.callAdd x, FavAction.setFavorites,
         FavAction.toastSuccess "Added to favorites"] := by
  unfold handleToggleFavorite
  cases h : S.contains x <;> simp [h]

/-- Claim C2: three filter changes at times t1 ≤ t2 ≤ t3 inside one
1000ms window (with nothing after the last change) issue exactly one
`saveFilters` write, holding the full filter object of the last change;
the two earlier pending writes are cancelled. -/
theorem debounce_three_changes_one_write (t1 t2 t3 : Nat) (f1 f2 f3 : Filters)
    (h12 : t1 ≤ t2) (h23 : t2 ≤ t3) (hw : t3 < t1 + 1000) :
    debounceWrites 1000 [(t1, f1), (t2, f2), (t3, f3)] = [(t3 + 1000, f3)] := by
  have hc1 : ¬ (t1 + 1000 ≤ t2) := by omega
  have hc2 : ¬ (t2 + 1000 ≤ t3) := by omega
  simp [debounceWrites, hc1, hc2]

/-- Claim C2, witness: three concrete changes at 0ms, 300ms and 600ms
produce exactly the one write at 1600ms carrying the last filter
object. -/
theorem debounce_three_changes_one_write_witness :
    (0 : Nat) ≤ 300 ∧ (300 : Nat) ≤ 600 ∧ (600 : Nat) < 0 + 1000 ∧
    debounceWrites 1000
      [(0, Filters.mk [] [] []), (300, Filters.mk ["Easy"] [] []),
       (600, Filters.mk ["Easy"] ["inside"] [])]
      = [(600 + 1000, Filters.mk ["Easy"] ["inside"] [])] :=
  ⟨by decide, by decide, by decide,
   debounce_three_changes_one_write 0 300 600 _ _ _ (by decide) (by decide) (by decide)⟩

/-- Claim C3: toggling the same item id twice with a signed-in user and
both collaborator calls succeeding restores the membership of the
favorites set: an id is a member afterwards exactly when it was a member
before. -/
theorem toggle_twice_restores_membership (S : List String) (x a : String) :
    a ∈ (handleToggleFavorite true (handleToggleFavorite true S x true).1 x true).1
      ↔ a ∈ S := by
  by_cases h : x ∈ S
  · have h1 : S.contains x = true := by simpa using h
    by_cases hax : a = x <;> simp [handleToggleFavorite, h1, hax] <;> simp_all
  · have h1 : S.contains x = false := by simpa using h
    by_cases hax : a = x <;> simp [handleToggleFavorite, h1, hax] <;> simp_all

/-- Claim C4: the filter derivation is idempotent: filtering an
already-filtered catalog again with the same filter object and search
string changes nothing. -/
theorem filterCatalog_idempotent (f : Filters) (s : String) (C : List CatalogEntry) :
    filterCatalog f s (filterCatalog f s C) = filterCatalog f s C := by
  simp [filterCatalog, List.filter_filter]

/-- Claim C5, counterexample: with all three filter sets empty but a
non-empty search string "z", a one-entry catalog titled "Arrays" filters
to the empty list, not to the full catalog. -/
theorem filter_empty_sets_not_full_cex :
    filterCatalog (Filters.mk [] [] []) "z"
      [CatalogEntry.mk "arrays" "Arrays" "Easy" "inside"]
      ≠ [CatalogEntry.mk "arrays" "Arrays" "Easy" "inside"] := by
  decide

/-- Claim C5, amended: for every catalog, if all three filter sets are
empty AND the search string is empty, the filtered result equals the
full catalog. -/
theorem filterCatalog_empty_filters_full_catalog (C : List CatalogEntry) :
    filterCatalog (Filters.mk [] [] []) "" C = C := by
  have he : ("" : String).isEmpty = true := by decide
  have hm : ∀ e : CatalogEntry, matchesEntry (Filters.mk [] [] []) "" e = true := by
    intro e
    simp [matchesEntry, he]
  simp only [filterCatalog]
  exact List.filter_eq_self.mpr (fun e _ => hm e)

/-- Claim C6: every file whose MIME type is outside the allow-list is
rejected by `onDrop` with the user-visible "Invalid file type" message,
whatever its size and whatever the external call would have returned. -/
theorem onDrop_rejects_invalid_type (f : UFile) (ok : Bool)
    (h : validTypes.contains f.type = false) :
    onDrop true f ok = [UAction.toastError "Invalid file type"] := by
  have hm : f.type ∉ validTypes := by simpa using h
  simp [onDrop, hm]

/-- Claim C6, witness: a 6 MiB "image/png" file is rejected with the
"Invalid file type" message. -/
theorem onDrop_rejects_invalid_type_witness :
    validTypes.contains "image/png" = false ∧
    onDrop true (UFile.mk "image/png" (6 * 1024 * 1024)) true
      = [UAction.toastError "Invalid file type"] :=
  ⟨by decide,
   onDrop_rejects_invalid_type (UFile.mk "image/png" (6 * 1024 * 1024)) true (by decide)⟩

/-- Claim C7: every file larger than 5 MiB is rejected by `onDrop` with
a user-visible error message, whatever its MIME type (a disallowed type
draws the type message first, an allowed one the size message). -/
theorem onDrop_rejects_oversize (f : UFile) (ok : Bool)
    (h : 5 * 1024 * 1024 < f.size) :
    ∃ m, onDrop true f ok = [UAction.toastError m] := by
  by_cases ht : f.type ∈ validTypes
  · exact ⟨"File too large", by simp [onDrop, ht, h]⟩
  · exact ⟨"Invalid file type", by simp [onDrop, ht]⟩

/-- Claim C7, witness: a 6 MiB PDF is rejected with a user-visible
message. -/
theorem onDrop_rejects_oversize_witness :
    5 * 1024 * 1024 < (UFile.mk "application/pdf" (6 * 1024 * 1024)).size ∧
    ∃ m, onDrop true (UFile.mk "application/pdf" (6 * 1024 * 1024)) true
      = [UAction.toastError m] :=
  ⟨by decide,
   onDrop_rejects_oversize (UFile.mk "application/pdf" (6 * 1024 * 1024)) true (by decide)⟩

/-- Claim C8: for every file failing validation (disallowed MIME type or
size above the 5 MiB ceiling), the `onDrop` trace never contains the
external `uploadResume` network call. -/
theorem onDrop_invalid_no_network (f : UFile) (ok : Bool)
    (h : validTypes.contains f.type = false ∨ 5 * 1024 * 1024 < f.size) :
    UAction.callUploadResume ∉ onDrop true f ok := by
  by_cases ht : f.type ∈ validTypes
  · rcases h with h | h
    · simp at h
      exact absurd ht h
    · simp [onDrop, ht, h]
  · simp [onDrop, ht]

/-- Claim C8, witness: a small "image/png" file triggers no network
call. -/
theorem onDrop_invalid_no_network_witness :
    validTypes.contains "image/png" = false ∧
    UAction.callUploadResume ∉ onDrop true (UFile.mk "image/png" 100) true :=
  ⟨by decide,
   onDrop_invalid_no_network (UFile.mk "image/png" 100) true (Or.inl (by decide))⟩

/-- Claim C9: with a signed-in user, when the collaborator call of the
favorites toggle fails, the local favorites list is returned unchanged
and the only notification in the trace is the error toast. -/
theorem toggle_failure_preserves_favorites (S : List String) (x : String) :
    (handleToggleFavorite true S x false).1 = S ∧
    (handleToggleFavorite true S x false).2.filter isToastAction
      = [FavAction.toastError "Error updating favorites"] := by
  by_cases h : x ∈ S <;> simp [handleToggleFavorite, h, isToastAction]

/-- Claim C10: each checkbox handler of `DSAFilters` changes only its
own dimension of the filter state: the difficulty handler preserves
category and companies, the category handler preserves difficulty and
companies, and the company handler preserves difficulty and category. -/
theorem filter_handlers_frame (F : Filters) (d c comp : String) (b1 b2 b3 : Bool) :
    (handleDifficultyChange F d b1).category = F.category ∧
    (handleDifficultyChange F d b1).companies = F.companies ∧
    (handleCategoryChange F c b2).difficulty = F.difficulty ∧
    (handleCategoryChange F c b2).companies = F.companies ∧
    (handleCompanyChange F comp b3).difficulty = F.difficulty ∧
    (handleCompanyChange F comp b3).category = F.category :=
  ⟨rfl, rfl, rfl, rfl, rfl, rfl⟩

end StudyMate
